import Mathlib

/-!
Verification of the gastown recovery daemon (package `internal/daemon`)
against its design specification.

The daemon's side effects on its collaborators (the tmux session manager,
the beads work ledger, the `gt mail` messaging backend, the wisp rig
configuration) are modelled as an explicit trace of `Event`s; the
collaborators' observable answers (does a session exist, does a config
record exist, did an external call succeed) are supplied by an `Env`
record of oracle functions.  Durations are modelled in integer
milliseconds; RFC3339 timestamp parsing and JSON body decoding are
external library calls and are modelled by `Option`-valued fields
carrying their outcome.  `filepath.Join` is modelled as slash
concatenation (all joined components in the modelled paths are
non-empty literals).
-/

namespace Gastown

/-- One observable side effect of the daemon on a collaborator.
Read-only queries that the control flow branches on are recorded
(`hasSessionQuery`); pure log writes are not. -/
inductive Event where
  | hasSessionQuery (name : String)
  | killSession (name : String)
  | newSession (name : String) (workDir : String)
  | ensureSessionFresh (name : String) (workDir : String)
  | setEnvironment (session : String) (key : String) (value : String)
  | configureTheme (session : String)
  | setPaneDiedHook (session : String) (agentID : String)
  | sendKeys (session : String) (cmd : String)
  | sendKeysDelayed (session : String) (cmd : String) (delayMs : Int)
  | waitForCommand (session : String)
  | acceptBypassWarning (session : String)
  | sleepMs (ms : Int)
  | startupNudge (session : String) (recipient : String) (sender : String) (topic : String)
  | nudgeSession (session : String) (text : String)
  | deleteMail (id : String)
  | sendMail (recipient : String) (subject : String) (body : String)
  | syncWorkspace (dir : String)
deriving DecidableEq, Repr

/-- Is the event a session kill? -/
def Event.isKill : Event → Bool
  | .killSession _ => true
  | _ => false

/-- Is the event a session creation (`NewSession` or `EnsureSessionFresh`)? -/
def Event.isCreate : Event → Bool
  | .newSession _ _ => true
  | .ensureSessionFresh _ _ => true
  | _ => false

/-- Is the event a nudge delivered to a session (startup or plain nudge)? -/
def Event.isNudge : Event → Bool
  | .startupNudge _ _ _ _ => true
  | .nudgeSession _ _ => true
  | _ => false

/-- Is the event an outbound mail notification? -/
def Event.isMail : Event → Bool
  | .sendMail _ _ _ => true
  | _ => false

/-- Components of an agent identity string (`parseIdentity` in lifecycle.go). -/
structure ParsedIdentity where
  roleType : String
  rigName : String := ""
  agentName : String := ""
deriving DecidableEq, Repr

/-- Role bead configuration record (`beads.RoleConfig`), the fields the
daemon reads.  Unset string fields are the empty string, as in Go. -/
structure RoleConfig where
  sessionPattern : String := ""
  workDirPattern : String := ""
  startCommand : String := ""
  needsPreSync : Bool := false
  envVars : List (String × String) := []
deriving DecidableEq, Repr

/-- The slice of an agent bead the crash scan reads (`AgentBeadInfo`):
the hook bead read from the database column. -/
structure AgentBeadInfo where
  hookBead : String := ""
deriving DecidableEq, Repr

/-- A message from `gt mail inbox --json` (`BeadsMessage`).
`timestamp` is the outcome of the external RFC3339 parse of the
`Timestamp` field (`none` = parse error); `bodyJsonAction` is the
outcome of JSON-decoding the body into `LifecycleBody` (`none` =
unmarshal error, triggering the plain-text fallback on `body`). -/
structure BeadsMessage where
  id : String
  From : String := ""
  subject : String := ""
  body : String := ""
  bodyJsonAction : Option String := none
  timestamp : Option Int := none
  read : Bool := false
deriving DecidableEq, Repr

/-- Lifecycle action requested by an agent. -/
inductive LifecycleAction where
  | cycle
  | restart
  | shutdown
deriving DecidableEq, Repr

/-- A parsed lifecycle request (`LifecycleRequest`). -/
structure LifecycleRequest where
  From : String
  action : LifecycleAction
deriving DecidableEq, Repr

/-- A work-ledger agent record as the violation scans read it from
`bd list --type=agent --json`: hook bead and agent state come from
database columns, `updatedAt` is the parsed `updated_at` timestamp. -/
structure AgentRecord where
  id : String
  hookBead : String := ""
  agentState : String := ""
  updatedAt : Option Int := none
deriving DecidableEq, Repr

/-- Maximum age of a lifecycle message before it is ignored
(`MaxLifecycleMessageAge = 6 * time.Hour`), in milliseconds. -/
def maxLifecycleMessageAgeMs : Int := 6 * 60 * 60 * 1000

/-- GUPP violation timeout (`GUPPViolationTimeout = 30 * time.Minute`),
in milliseconds. -/
def guppViolationTimeoutMs : Int := 30 * 60 * 1000

/-- Split a character list at the first occurrence of the (non-empty)
separator: the part before and the part after it, or `none` when the
separator does not occur. -/
def breakOnAux (sep : List Char) : List Char → Option (List Char × List Char)
  | [] => none
  | c :: rest =>
    if sep.isPrefixOf (c :: rest) then some ([], (c :: rest).drop sep.length)
    else
      match breakOnAux sep rest with
      | none => none
      | some (pre, post) => some (c :: pre, post)

/-- String view of `breakOnAux`. -/
def strBreakOn (s sep : String) : Option (String × String) :=
  match breakOnAux sep.data s.data with
  | none => none
  | some (pre, post) => some (String.mk pre, String.mk post)

/-- `strings.Contains s sub` for a non-empty sub. -/
def containsSub (s sub : String) : Bool :=
  (strBreakOn s sub).isSome

/-- `strings.SplitN s sep 2`: split at the first occurrence only. -/
def splitN2 (s sep : String) : List String :=
  match strBreakOn s sep with
  | none => [s]
  | some (a, b) => [a, b]

/-- `strings.HasSuffix`. -/
def strEndsWith (s suffix : String) : Bool :=
  suffix.data.isSuffixOf s.data

/-- `strings.HasPrefix`. -/
def strStartsWith (s p : String) : Bool :=
  p.data.isPrefixOf s.data

/-- Remove the last `n` characters (`strings.TrimSuffix` after a
successful suffix check). -/
def strDropRight (s : String) (n : Nat) : String :=
  String.mk (s.data.take (s.data.length - n))

/-- Remove the first `n` characters (`strings.TrimPrefix` after a
successful check). -/
def strDrop (s : String) (n : Nat) : String :=
  String.mk (s.data.drop n)

/-- ASCII lowercasing (`strings.ToLower` on the identifiers involved). -/
def strToLower (s : String) : String :=
  String.mk (s.data.map Char.toLower)

/-- `strings.TrimSpace`. -/
def strTrim (s : String) : String :=
  String.mk (((s.data.dropWhile Char.isWhitespace).reverse.dropWhile
    Char.isWhitespace).reverse)

/-- The part of the list before the LAST occurrence of `c`
(`strings.LastIndex` followed by a take), or `none` when `c` does not
occur. -/
def beforeLastChar (c : Char) : List Char → Option (List Char)
  | [] => none
  | x :: rest =>
    match beforeLastChar c rest with
    | some pre => some (x :: pre)
    | none => if x = c then some [] else none

/-- External collaborators, as oracle functions.  Session-manager
queries and call outcomes, the beads role-config store, wisp rig
configuration, and helper packages (`session`, `config`, `beads`)
whose string-building functions live outside the daemon package are
abstract here; the witness manager's `Start` (not part of the daemon
package) is the opaque `witnessStartEvents`.  Defaults only serve
concrete witnesses; theorems quantify over the whole record. -/
structure Env where
  townRoot : String := "/town"
  hasSession : String → Bool := fun _ => false
  hasSessionErr : String → Bool := fun _ => false
  isClaudeRunning : String → Bool := fun _ => false
  killOk : String → Bool := fun _ => true
  ensureFreshOk : String → Bool := fun _ => true
  sendKeysOk : String → Bool := fun _ => true
  deleteOk : String → Bool := fun _ => true
  getRoleConfig : String → Option RoleConfig := fun _ => none
  roleBeadIDTown : String → String := fun r => "gt-role-" ++ r
  roleBeadIDLegacy : String → String := fun r => "gt-" ++ r ++ "-role"
  expandPattern : String → String → String → String → String := fun p _ _ _ => p
  mayorSessionName : String := "gt-mayor"
  deaconSessionName : String := "gt-deacon"
  agentStartupCommand : String := "claude"
  runtimeCommand : String → String := fun _ => "claude"
  buildPolecatStartupCommand : String → String → String → String := fun _ _ _ => "polecat-start"
  propulsionNudgeForRole : String → String → String := fun r _ => "propulsion:" ++ r
  shutdownNotifyDelayMs : Int := 500
  rigStatus : String → String := fun _ => ""
  autoRestartBlocked : String → Bool := fun _ => false
  autoRestartVal : String → Option Bool := fun _ => none
  worktreeExists : String → Bool := fun _ => true
  polecatBeadID : String → String → String := fun r n => "gt-polecat-" ++ r ++ "-" ++ n
  agentBeadInfo : String → Option AgentBeadInfo := fun _ => none
  witnessStartEvents : String → List Event := fun _ => []

/-- `parseIdentity` (lifecycle.go): the single place identity string
patterns are interpreted.  Checks run in source order: the two
town-level literals, the `-witness` and `-refinery` suffixes, the
`-crew-` and `-polecat-` infix forms (first occurrence), and the
slash form `<rig>/polecats/<name>` (which must split into exactly
two parts). -/
def parseIdentity (identity : String) : Option ParsedIdentity :=
  if identity = "mayor" then some { roleType := "mayor" }
  else if identity = "deacon" then some { roleType := "deacon" }
  else if strEndsWith identity "-witness" then
    some { roleType := "witness", rigName := strDropRight identity "-witness".length }
  else if strEndsWith identity "-refinery" then
    some { roleType := "refinery", rigName := strDropRight identity "-refinery".length }
  else if containsSub identity "-crew-" then
    match splitN2 identity "-crew-" with
    | [a, b] => some { roleType := "crew", rigName := a, agentName := b }
    | _ => none
  else if containsSub identity "-polecat-" then
    match splitN2 identity "-polecat-" with
    | [a, b] => some { roleType := "polecat", rigName := a, agentName := b }
    | _ => none
  else if containsSub identity "/polecats/" then
    match strBreakOn identity "/polecats/" with
    | some (a, b) =>
      if containsSub b "/polecats/" then none
      else some { roleType := "polecat", rigName := a, agentName := b }
    | none => none
  else none

/-- `identityToBDActor` (lifecycle.go): convert a daemon identity to the
slash-formatted `BD_ACTOR` value; already-slash-formatted identities
pass through, unknown formats are returned as-is. -/
def identityToBDActor (identity : String) : String :=
  if containsSub identity "/polecats/" || containsSub identity "/crew/" ||
      containsSub identity "/witness" || containsSub identity "/refinery" then
    identity
  else
    match parseIdentity identity with
    | none => identity
    | some parsed =>
      match parsed.roleType with
      | "mayor" => parsed.roleType
      | "deacon" => parsed.roleType
      | "witness" => parsed.rigName ++ "/witness"
      | "refinery" => parsed.rigName ++ "/refinery"
      | "crew" => parsed.rigName ++ "/crew/" ++ parsed.agentName
      | "polecat" => parsed.rigName ++ "/polecats/" ++ parsed.agentName
      | _ => identity

/-- `getRoleConfigForIdentity` (lifecycle.go): parse the identity, look
up the role bead config by the current town naming, and fall back to
the legacy bead id when the current lookup finds nothing.  A lookup
that errors is logged and treated as no config, so the store is an
`Option`-valued oracle.  Returns `none` exactly when identity parsing
fails. -/
def getRoleConfigForIdentity (env : Env) (identity : String) :
    Option (Option RoleConfig × ParsedIdentity) :=
  match parseIdentity identity with
  | none => none
  | some parsed =>
    let roleBeadID := env.roleBeadIDTown parsed.roleType
    let primary := env.getRoleConfig roleBeadID
    let cfg :=
      match primary with
      | some c => some c
      | none =>
        let legacyID := env.roleBeadIDLegacy parsed.roleType
        if legacyID ≠ roleBeadID then env.getRoleConfig legacyID else none
    some (cfg, parsed)

/-- Hardcoded fallback session-name patterns of `identityToSession`. -/
def fallbackSession (env : Env) (parsed : ParsedIdentity) : String :=
  match parsed.roleType with
  | "mayor" => env.mayorSessionName
  | "deacon" => env.deaconSessionName
  | "witness" => "gt-" ++ parsed.rigName ++ "-witness"
  | "refinery" => "gt-" ++ parsed.rigName ++ "-refinery"
  | "crew" => "gt-" ++ parsed.rigName ++ "-crew-" ++ parsed.agentName
  | "polecat" => "gt-" ++ parsed.rigName ++ "-" ++ parsed.agentName
  | _ => ""

/-- `identityToSession` (lifecycle.go): role bead `session_pattern` if
set, otherwise hardcoded per-role patterns; empty string when the
identity is unknown. -/
def identityToSession (env : Env) (identity : String) : String :=
  match getRoleConfigForIdentity env identity with
  | none => ""
  | some (cfg, parsed) =>
    match cfg with
    | some c =>
      if c.sessionPattern ≠ "" then
        env.expandPattern c.sessionPattern parsed.rigName parsed.agentName parsed.roleType
      else fallbackSession env parsed
    | none => fallbackSession env parsed

/-- Hardcoded fallback working-directory patterns of `getWorkDir`. -/
def defaultWorkDir (env : Env) (parsed : ParsedIdentity) : String :=
  match parsed.roleType with
  | "mayor" => env.townRoot
  | "deacon" => env.townRoot
  | "witness" => env.townRoot ++ "/" ++ parsed.rigName
  | "refinery" => env.townRoot ++ "/" ++ parsed.rigName ++ "/refinery/rig"
  | "crew" => env.townRoot ++ "/" ++ parsed.rigName ++ "/crew/" ++ parsed.agentName
  | "polecat" => env.townRoot ++ "/" ++ parsed.rigName ++ "/polecats/" ++ parsed.agentName
  | _ => ""

/-- `getWorkDir` (lifecycle.go): role bead `work_dir_pattern` if set,
otherwise hardcoded per-role defaults. -/
def getWorkDir (env : Env) (cfg : Option RoleConfig) (parsed : ParsedIdentity) : String :=
  match cfg with
  | some c =>
    if c.workDirPattern ≠ "" then
      env.expandPattern c.workDirPattern parsed.rigName parsed.agentName parsed.roleType
    else defaultWorkDir env parsed
  | none => defaultWorkDir env parsed

/-- `getNeedsPreSync` (lifecycle.go): explicit config wins; otherwise
roles with persistent git clones (refinery, crew, polecat) pre-sync. -/
def getNeedsPreSync (cfg : Option RoleConfig) (parsed : ParsedIdentity) : Bool :=
  match cfg with
  | some c => c.needsPreSync
  | none =>
    match parsed.roleType with
    | "refinery" => true
    | "crew" => true
    | "polecat" => true
    | _ => false

/-- `getStartCommand` (lifecycle.go): explicit config command
(pattern-expanded) wins; otherwise the runtime default command, with
polecats using the dedicated polecat startup command builder. -/
def getStartCommand (env : Env) (cfg : Option RoleConfig) (parsed : ParsedIdentity) : String :=
  match cfg with
  | some c =>
    if c.startCommand ≠ "" then
      env.expandPattern c.startCommand parsed.rigName parsed.agentName parsed.roleType
    else getStartCommandDefault env parsed
  | none => getStartCommandDefault env parsed
where
  getStartCommandDefault (env : Env) (parsed : ParsedIdentity) : String :=
    let rigPath := if parsed.rigName ≠ "" then env.townRoot ++ "/" ++ parsed.rigName else ""
    if parsed.roleType = "polecat" then
      env.buildPolecatStartupCommand parsed.rigName parsed.agentName rigPath
    else
      "exec " ++ env.runtimeCommand rigPath

/-- `setSessionEnvironment` (lifecycle.go): always `GT_ROLE` and
`BD_ACTOR`, then the custom env vars from the role config, each
pattern-expanded.  (Go iterates the env-var map in unspecified order;
the model fixes the list order.) -/
def setSessionEnvironment (env : Env) (sessionName identity : String)
    (cfg : Option RoleConfig) (parsed : ParsedIdentity) : List Event :=
  [Event.setEnvironment sessionName "GT_ROLE" identity,
   Event.setEnvironment sessionName "BD_ACTOR" (identityToBDActor identity)] ++
  (match cfg with
   | some c => c.envVars.map fun kv =>
       Event.setEnvironment sessionName kv.1
         (env.expandPattern kv.2 parsed.rigName parsed.agentName parsed.roleType)
   | none => [])

/-- `applySessionTheme` (lifecycle.go): mayor theme, or the rig theme
for rig-level agents; town-level non-mayor agents get none. -/
def applySessionTheme (sessionName : String) (parsed : ParsedIdentity) : List Event :=
  if parsed.roleType = "mayor" then [Event.configureTheme sessionName]
  else if parsed.rigName ≠ "" then [Event.configureTheme sessionName]
  else []

/-- `isRigOperational` (daemon.go): a rig can have agents auto-started
unless its wisp status is parked or docked, `auto_restart` is blocked,
or `auto_restart` is explicitly set to `false`.  (A present non-bool
`auto_restart` value leaves the rig operational in Go; the oracle
reports only present bool values.) -/
def isRigOperational (env : Env) (rigName : String) : Bool × String :=
  let status := env.rigStatus rigName
  if status = "parked" then (false, "rig is parked")
  else if status = "docked" then (false, "rig is docked")
  else if env.autoRestartBlocked rigName then (false, "auto_restart is blocked")
  else
    match env.autoRestartVal rigName with
    | some false => (false, "auto_restart is disabled")
    | _ => (true, "")

/-- `restartSession` (lifecycle.go): resolve the role config; refuse
for rig-level agents whose rig is not operational; resolve the work
dir; pre-sync when the role requires it; `EnsureSessionFresh`; set
environment and theme; send the startup command; wait for the program,
accept the bypass warning, pause; send the predecessor-discoverability
startup nudge; pause 2 s; send the role propulsion nudge.  Nudge and
wait failures are non-fatal in the source and so always appear in the
trace. -/
def restartSession (env : Env) (sessionName identity : String) :
    Except String Unit × List Event :=
  match getRoleConfigForIdentity env identity with
  | none => (.error ("parsing identity: unknown identity format: " ++ identity), [])
  | some (cfg, parsed) =>
    if parsed.rigName ≠ "" ∧ (isRigOperational env parsed.rigName).1 = false then
      (.error ("cannot restart session: " ++ (isRigOperational env parsed.rigName).2), [])
    else
      let workDir := getWorkDir env cfg parsed
      if workDir = "" then
        (.error ("cannot determine working directory for " ++ identity), [])
      else
        let preTrace : List Event :=
          if getNeedsPreSync cfg parsed then [Event.syncWorkspace workDir] else []
        let t1 := preTrace ++ [Event.ensureSessionFresh sessionName workDir]
        if env.ensureFreshOk sessionName = false then
          (.error "creating session", t1)
        else
          let t2 := t1 ++ setSessionEnvironment env sessionName identity cfg parsed ++
            applySessionTheme sessionName parsed ++
            [Event.sendKeys sessionName (getStartCommand env cfg parsed)]
          if env.sendKeysOk sessionName = false then
            (.error "sending startup command", t2)
          else
            (.ok (), t2 ++
              [Event.waitForCommand sessionName,
               Event.acceptBypassWarning sessionName,
               Event.sleepMs env.shutdownNotifyDelayMs,
               Event.startupNudge sessionName (identityToBDActor identity) "deacon"
                 "lifecycle-restart",
               Event.sleepMs 2000,
               Event.nudgeSession sessionName
                 (env.propulsionNudgeForRole parsed.roleType workDir)])

/-- `executeLifecycleAction` (lifecycle.go): resolve the sender to a
session name (empty = unknown identity, fail before any session
manager call); the read-only agent-bead state lookup is log-only and
leaves no trace; check session existence; `shutdown` kills a live
session; `cycle`/`restart` kill a live session, pause, and recreate it
via `restartSession`. -/
def executeLifecycleAction (env : Env) (request : LifecycleRequest) :
    Except String Unit × List Event :=
  let sessionName := identityToSession env request.From
  if sessionName = "" then
    (.error ("unknown agent identity: " ++ request.From), [])
  else
    let q : List Event := [Event.hasSessionQuery sessionName]
    if env.hasSessionErr sessionName then
      (.error "checking session", q)
    else
      let running := env.hasSession sessionName
      match request.action with
      | .shutdown =>
        if running then
          if env.killOk sessionName then (.ok (), q ++ [Event.killSession sessionName])
          else (.error "killing session", q ++ [Event.killSession sessionName])
        else (.ok (), q)
      | .cycle | .restart =>
        if running ∧ env.killOk sessionName = false then
          (.error "killing session", q ++ [Event.killSession sessionName])
        else
          let killTrace : List Event :=
            if running then
              [Event.killSession sessionName, Event.sleepMs env.shutdownNotifyDelayMs]
            else []
          let r := restartSession env sessionName request.From
          (match r.1 with
           | .ok _ => .ok ()
           | .error e => .error ("restarting session: " ++ e),
           q ++ killTrace ++ r.2)

/-- Map the action string of a message body to the enum
(`parseLifecycleRequest`, second half): restart, shutdown/stop, cycle. -/
def actionOfString (s : String) : Option LifecycleAction :=
  if strToLower s = "restart" then some .restart
  else if strToLower s = "shutdown" then some .shutdown
  else if strToLower s = "stop" then some .shutdown
  else if strToLower s = "cycle" then some .cycle
  else none

/-- Plain-text fallback of the body parse (`parseLifecycleRequest`):
used when JSON unmarshalling fails, recognizing a small fixed
vocabulary on the trimmed, lowercased body. -/
def fallbackBodyAction (body : String) : Option String :=
  let bodyLower := strToLower (strTrim body)
  if bodyLower = "restart" ∨ bodyLower = "action: restart" then some "restart"
  else if bodyLower = "shutdown" ∨ bodyLower = "action: shutdown" ∨ bodyLower = "stop" then
    some "shutdown"
  else if bodyLower = "cycle" ∨ bodyLower = "action: cycle" then some "cycle"
  else none

/-- `parseLifecycleRequest` (lifecycle.go): the lowercased subject must
start with the `lifecycle:` marker; the action comes from the JSON
body, falling back to the plain-text vocabulary; unknown actions are
rejected.  (The source stamps the request with `time.Now()`; the model
keeps only the fields later control flow reads.) -/
def parseLifecycleRequest (msg : BeadsMessage) : Option LifecycleRequest :=
  if (strStartsWith (strToLower msg.subject) "lifecycle:") = false then none
  else
    let actionStr : Option String :=
      match msg.bodyJsonAction with
      | some a => some a
      | none => fallbackBodyAction msg.body
    match actionStr with
    | none => none
    | some a =>
      match actionOfString a with
      | none => none
      | some action => some { From := msg.From, action := action }

/-- Processing of one inbox message inside the `ProcessLifecycleRequests`
loop (lifecycle.go): skip read messages; skip non-lifecycle messages;
delete stale requests (parsed timestamp older than the maximum age)
without executing; otherwise delete the message FIRST (claim then
execute) and then execute the action.  A failed delete is logged and
processing continues, so the delete attempt is always in the trace. -/
def processMessage (env : Env) (now : Int) (msg : BeadsMessage) : List Event :=
  if msg.read then []
  else
    match parseLifecycleRequest msg with
    | none => []
    | some request =>
      match msg.timestamp with
      | some t =>
        if now - t > maxLifecycleMessageAgeMs then [Event.deleteMail msg.id]
        else Event.deleteMail msg.id :: (executeLifecycleAction env request).2
      | none => Event.deleteMail msg.id :: (executeLifecycleAction env request).2

/-- `ProcessLifecycleRequests` (lifecycle.go): one tick's drain of the
deacon inbox, as the concatenated traces of processing each listed
message. -/
def processLifecycleRequests (env : Env) (now : Int) (msgs : List BeadsMessage) :
    List Event :=
  msgs.flatMap (processMessage env now)

/-- The inbox after a tick, under the messaging backend's delete-by-id
contract (spec section 6): a message remains unless a delete for its id
was issued during the tick and the backend's delete succeeded. -/
def inboxAfter (env : Env) (now : Int) (msgs : List BeadsMessage) : List BeadsMessage :=
  msgs.filter fun m =>
    !(env.deleteOk m.id &&
      decide (Event.deleteMail m.id ∈ processLifecycleRequests env now msgs))

/-- Outcome of the daemon's `TryLock` (`gofrs/flock`): acquired, held by
another process, or a lock-layer error. -/
inductive LockResult where
  | acquired
  | held
  | lockError (msg : String)
deriving DecidableEq, Repr

/-- Startup environment of `Daemon.Run`: the flock outcome and whether
the PID file write succeeds. -/
structure RunEnv where
  lock : LockResult
  pidWriteOk : Bool := true
deriving DecidableEq, Repr

/-- Observable outcome of the startup prefix of `Daemon.Run`. -/
structure RunOutcome where
  result : Except String Unit
  pidFileWritten : Bool
  enteredLoop : Bool
deriving Repr

/-- Startup prefix of `Daemon.Run` (daemon.go): acquire the exclusive
file lock non-blockingly; a lock error or a held lock is a fatal error
returned before the PID file is touched; only after the lock is held is
the PID file written, and only then does the daemon proceed to its main
loop. -/
def runStartup (env : RunEnv) : RunOutcome :=
  match env.lock with
  | .lockError e =>
    { result := .error ("acquiring lock: " ++ e), pidFileWritten := false,
      enteredLoop := false }
  | .held =>
    { result := .error "daemon already running (lock held by another process)",
      pidFileWritten := false, enteredLoop := false }
  | .acquired =>
    if env.pidWriteOk then
      { result := .ok (), pidFileWritten := true, enteredLoop := true }
    else
      { result := .error "writing PID file", pidFileWritten := false,
        enteredLoop := false }

/-- `ensureDeaconRunning` (daemon.go): observable-reality check.  If the
deacon session exists and the agent program runs inside it, do nothing;
if the session exists without the program (zombie), kill it and fall
through to a restart; if no session, create one fresh in the deacon
directory, set the role environment, and send the startup command.
Failures after a failed fresh-create or failed send are logged and end
the attempt. -/
def ensureDeaconRunning (env : Env) : List Event :=
  let s := env.deaconSessionName
  let deaconDir := env.townRoot ++ "/deacon"
  let startTrace : List Event :=
    Event.ensureSessionFresh s deaconDir ::
      (if env.ensureFreshOk s then
        [Event.setEnvironment s "GT_ROLE" "deacon",
         Event.setEnvironment s "BD_ACTOR" "deacon",
         Event.sendKeys s env.agentStartupCommand]
      else [])
  Event.hasSessionQuery s ::
    (if env.hasSessionErr s = false ∧ env.hasSession s then
      if env.isClaudeRunning s then []
      else Event.killSession s :: startTrace
    else startTrace)

/-- Refinery persisted state slice read by `Manager.Start`
(refinery/manager.go): the stored running flag and PID. -/
structure RefineryState where
  stateRunning : Bool := false
  pid : Int := 0
deriving DecidableEq, Repr

/-- Background branch of `refinery.Manager.Start` (refinery/manager.go):
if the tmux session exists, return ErrAlreadyRunning without touching
it (there is no program-liveness check and no zombie kill); likewise if
the persisted state still names a live PID.  Otherwise create the
session with `NewSession` in the refinery rig clone, set environment
and theme, persist the running state (kill the fresh session if that
fails), start the agent, and prime it after a 2 s delay. -/
def refineryStartBackground (env : Env) (rigName : String) (ref : RefineryState)
    (pidAlive : Bool) (rigCloneExists : Bool) (saveStateOk : Bool) :
    Except String Unit × List Event :=
  let rigPath := env.townRoot ++ "/" ++ rigName
  let sessionID := "gt-" ++ rigName ++ "-refinery"
  let q : List Event := [Event.hasSessionQuery sessionID]
  if env.hasSession sessionID then
    (.error "refinery already running", q)
  else if ref.stateRunning ∧ ref.pid > 0 ∧ pidAlive then
    (.error "refinery already running", q)
  else
    let dir := if rigCloneExists then rigPath ++ "/refinery/rig" else rigPath
    let t1 := q ++
      [Event.newSession sessionID dir,
       Event.setEnvironment sessionID "GT_RIG" rigName,
       Event.setEnvironment sessionID "GT_REFINERY" "1",
       Event.setEnvironment sessionID "GT_ROLE" "refinery",
       Event.setEnvironment sessionID "BEADS_DIR" (rigPath ++ "/mayor/rig/.beads"),
       Event.setEnvironment sessionID "BEADS_NO_DAEMON" "1",
       Event.setEnvironment sessionID "BEADS_AGENT_NAME" (rigName ++ "/refinery"),
       Event.configureTheme sessionID]
    if saveStateOk = false then
      (.error "saving state", t1 ++ [Event.killSession sessionID])
    else
      let t2 := t1 ++ [Event.sendKeys sessionID "claude --dangerously-skip-permissions"]
      if env.sendKeysOk sessionID = false then
        (.error "starting Claude agent", t2 ++ [Event.killSession sessionID])
      else
        (.ok (), t2 ++ [Event.sendKeysDelayed sessionID "gt prime" 2000])

/-- `ensureWitnessRunning` (daemon.go): the rig operational check runs
before the witness manager is even constructed; when the rig is not
operational the auto-start is skipped entirely.  The witness manager's
`Start` lives outside the daemon package and is opaque here. -/
def ensureWitnessRunning (env : Env) (rigName : String) : List Event :=
  if (isRigOperational env rigName).1 = false then []
  else env.witnessStartEvents rigName

/-- Subject line of a GUPP violation notification (duration rendering
is modelled as the raw millisecond count). -/
def guppSubject (agentID : String) (ageMs : Int) : String :=
  "GUPP_VIOLATION: " ++ agentID ++ " stuck for " ++ toString ageMs ++ "ms"

/-- Body of a GUPP violation notification. -/
def guppBody (agentID hookBead : String) (ageMs : Int) : String :=
  "Agent " ++ agentID ++ " has work on hook but is not progressing. hook_bead: " ++
    hookBead ++ " stuck_duration: " ++ toString ageMs ++ "ms"

/-- Per-record step of `checkRigGUPPViolations` (lifecycle.go): only
records with this rig's polecat id pattern, a non-empty hook bead, an
active-looking state (`working` or `running`), a parseable last-update
timestamp, and an age strictly over the timeout produce the single
witness notification. -/
def guppCheckAgent (now : Int) (rigName : String) (a : AgentRecord) : List Event :=
  if (strStartsWith a.id ("gt-polecat-" ++ rigName ++ "-")) = false then []
  else if a.hookBead = "" then []
  else if a.agentState = "working" ∨ a.agentState = "running" then
    match a.updatedAt with
    | none => []
    | some t =>
      if now - t > guppViolationTimeoutMs then
        [Event.sendMail (rigName ++ "/witness") (guppSubject a.id (now - t))
          (guppBody a.id a.hookBead (now - t))]
      else []
  else []

/-- `checkRigGUPPViolations` (lifecycle.go): the scan over all listed
agent records for one rig. -/
def checkRigGUPPViolations (now : Int) (rigName : String)
    (agents : List AgentRecord) : List Event :=
  agents.flatMap (guppCheckAgent now rigName)

/-- `extractRigFromAgentID` (lifecycle.go): the rig embedded in a
polecat agent bead id `gt-polecat-<rig>-<name>` is everything after the
fixed marker and before the last dash; ids without the marker or a dash
yield the empty string. -/
def extractRigFromAgentID (agentID : String) : String :=
  if (strStartsWith agentID "gt-polecat-") = false then ""
  else
    let rest := strDrop agentID "gt-polecat-".length
    match beforeLastChar (Char.ofNat 45) rest.data with
    | none => ""
    | some pre => String.mk pre

/-- Subject line of an orphaned-work notification. -/
def orphanSubject (agentID : String) : String :=
  "ORPHANED_WORK: " ++ agentID ++ " has hooked work but is dead"

/-- Body of an orphaned-work notification. -/
def orphanBody (agentID hookBead : String) : String :=
  "Agent " ++ agentID ++ " is dead but has work on its hook. hook_bead: " ++ hookBead

/-- Per-dead-agent step of `checkOrphanedWork` (lifecycle.go): skip if
the hook is empty; notify `<rig>/witness` only when a rig name can be
extracted from the agent id. -/
def orphanCheckAgent (idHook : String × String) : List Event :=
  if idHook.2 = "" then []
  else
    let rigName := extractRigFromAgentID idHook.1
    if rigName = "" then []
    else [Event.sendMail (rigName ++ "/witness") (orphanSubject idHook.1)
      (orphanBody idHook.1 idHook.2)]

/-- `getDeadAgents` (lifecycle.go): records whose stored agent state is
`dead`, projected to id and hook bead. -/
def getDeadAgents (agents : List AgentRecord) : List (String × String) :=
  (agents.filter fun a => a.agentState = "dead").map fun a => (a.id, a.hookBead)

/-- `checkOrphanedWork` (lifecycle.go): the orphaned-work scan over all
listed agent records. -/
def checkOrphanedWork (agents : List AgentRecord) : List Event :=
  (getDeadAgents agents).flatMap orphanCheckAgent

/-- The contribution of a single ledger record to the orphaned-work
scan (dead records run `orphanCheckAgent`, all others contribute
nothing); `checkOrphanedWork` is its pointwise concatenation. -/
def orphanEventsForRecord (a : AgentRecord) : List Event :=
  if a.agentState = "dead" then orphanCheckAgent (a.id, a.hookBead) else []

/-- `restartPolecatSession` (daemon.go): refuse when the rig is not
operational; require the polecat worktree to exist; pre-sync the
workspace; `EnsureSessionFresh`; set the polecat environment, theme and
pane-died hook; send the polecat startup command; wait for the program
and accept the bypass warning.  The working directory and startup
command are fixed polecat defaults, not read from role configuration. -/
def restartPolecatSession (env : Env) (rigName polecatName sessionName : String) :
    Except String Unit × List Event :=
  if (isRigOperational env rigName).1 = false then
    (.error ("cannot restart polecat: " ++ (isRigOperational env rigName).2), [])
  else
    let workDir := env.townRoot ++ "/" ++ rigName ++ "/polecats/" ++ polecatName
    if env.worktreeExists workDir = false then
      (.error ("polecat worktree does not exist: " ++ workDir), [])
    else
      let t1 : List Event :=
        [Event.syncWorkspace workDir, Event.ensureSessionFresh sessionName workDir]
      if env.ensureFreshOk sessionName = false then
        (.error "creating session", t1)
      else
        let t2 := t1 ++
          [Event.setEnvironment sessionName "GT_ROLE" "polecat",
           Event.setEnvironment sessionName "GT_RIG" rigName,
           Event.setEnvironment sessionName "GT_POLECAT" polecatName,
           Event.setEnvironment sessionName "BD_ACTOR"
             (rigName ++ "/polecats/" ++ polecatName),
           Event.setEnvironment sessionName "BEADS_DIR"
             (env.townRoot ++ "/" ++ rigName ++ "/.beads"),
           Event.setEnvironment sessionName "BEADS_NO_DAEMON" "1",
           Event.setEnvironment sessionName "BEADS_AGENT_NAME"
             (rigName ++ "/" ++ polecatName),
           Event.configureTheme sessionName,
           Event.setPaneDiedHook sessionName (rigName ++ "/" ++ polecatName),
           Event.sendKeys sessionName
             (env.buildPolecatStartupCommand rigName polecatName "")]
        if env.sendKeysOk sessionName = false then
          (.error "sending startup command", t2)
        else
          (.ok (), t2 ++ [Event.waitForCommand sessionName,
                          Event.acceptBypassWarning sessionName])

/-- Subject line of a crashed-polecat notification. -/
def crashSubject (rigName polecatName : String) : String :=
  "CRASHED_POLECAT: " ++ rigName ++ "/" ++ polecatName ++ " restart failed"

/-- Body of a crashed-polecat notification, carrying the restart
failure reason. -/
def crashBody (polecatName hookBead reason : String) : String :=
  "Polecat " ++ polecatName ++ " crashed and automatic restart failed. hook_bead: " ++
    hookBead ++ " restart_error: " ++ reason

/-- `checkPolecatHealth` (daemon.go): if the polecat's tmux session is
alive, do nothing; if it is gone, read the agent bead; an empty hook
bead means the polecat was idle and is not restarted; a non-empty hook
bead is a crash, triggering an automatic restart, and on restart
failure exactly one notification with the failure reason goes to the
rig's witness. -/
def checkPolecatHealth (env : Env) (rigName polecatName : String) : List Event :=
  let sessionName := "gt-" ++ rigName ++ "-" ++ polecatName
  Event.hasSessionQuery sessionName ::
    (if env.hasSessionErr sessionName then []
    else if env.hasSession sessionName then []
    else
      match env.agentBeadInfo (env.polecatBeadID rigName polecatName) with
      | none => []
      | some info =>
        if info.hookBead = "" then []
        else
          let r := restartPolecatSession env rigName polecatName sessionName
          r.2 ++
            (match r.1 with
             | .ok _ => []
             | .error e =>
               [Event.sendMail (rigName ++ "/witness") (crashSubject rigName polecatName)
                 (crashBody polecatName info.hookBead e)]))


/-- C2: starting a supervisor while another holds the exclusive file
lock fails immediately with an error and the PID file is not written in
that path; the non-blocking lock acquisition strictly precedes the PID
file write, so the PID file is written (and the main loop entered) only
in the lock-acquired branch. -/
theorem c2_lock_before_pidfile :
    (∀ pidOk : Bool,
      runStartup { lock := .held, pidWriteOk := pidOk } =
        { result := .error "daemon already running (lock held by another process)",
          pidFileWritten := false, enteredLoop := false }) ∧
    (∀ env : RunEnv,
      (runStartup env).pidFileWritten =
        (decide (env.lock = LockResult.acquired) && env.pidWriteOk)) ∧
    (∀ env : RunEnv,
      (runStartup env).enteredLoop =
        (decide (env.lock = LockResult.acquired) && env.pidWriteOk)) := by
  refine ⟨fun pidOk => rfl, fun env => ?_, fun env => ?_⟩ <;>
    · obtain ⟨lock, pidOk⟩ := env
      cases lock <;> cases pidOk <;> rfl

/-- C10: a lifecycle request whose sender identity matches none of the
recognized patterns (so `parseIdentity` rejects it) makes
`executeLifecycleAction` return the unknown-agent-identity error with
an empty trace: no session-manager call happens, so nothing is killed,
created, or nudged. -/
theorem c10_unknown_identity (env : Env) (request : LifecycleRequest)
    (h : parseIdentity request.From = none) :
    executeLifecycleAction env request =
      (.error ("unknown agent identity: " ++ request.From), []) := by
  have hs : identityToSession env request.From = "" := by
    unfold identityToSession getRoleConfigForIdentity
    rw [h]
  simp [executeLifecycleAction, hs]

/-- Witness for C10 at the concrete unrecognized identity `gremlin`. -/
theorem c10_witness :
    parseIdentity "gremlin" = none ∧
    executeLifecycleAction {} { From := "gremlin", action := .cycle } =
      (.error "unknown agent identity: gremlin", []) :=
  ⟨by decide, c10_unknown_identity {} { From := "gremlin", action := .cycle } (by decide)⟩

/-- C1: an unread, non-stale lifecycle request message is deleted from
the inbox FIRST — the delete attempt is the head of the message's
processing trace, strictly before any execution effect — and this holds
for every outcome of the execution (the environment's success flags are
arbitrary); consequently, when the backend delete succeeds, the message
is absent from the inbox after the tick and cannot be reprocessed
later. -/
theorem c1_claim_then_execute (env : Env) (now : Int) (msgs : List BeadsMessage)
    (msg : BeadsMessage) (request : LifecycleRequest)
    (hread : msg.read = false)
    (hparse : parseLifecycleRequest msg = some request)
    (hfresh : ∀ t, msg.timestamp = some t → now - t ≤ maxLifecycleMessageAgeMs)
    (hmem : msg ∈ msgs)
    (hdel : env.deleteOk msg.id = true) :
    processMessage env now msg =
      Event.deleteMail msg.id :: (executeLifecycleAction env request).2 ∧
    msg ∉ inboxAfter env now msgs := by
  have h1 : processMessage env now msg =
      Event.deleteMail msg.id :: (executeLifecycleAction env request).2 := by
    cases hts : msg.timestamp with
    | none => simp [processMessage, hread, hparse, hts]
    | some t =>
      have hle := hfresh t hts
      simp [processMessage, hread, hparse, hts, not_lt.mpr hle]
  refine ⟨h1, ?_⟩
  intro hin
  have hmemEv : Event.deleteMail msg.id ∈ processLifecycleRequests env now msgs := by
    unfold processLifecycleRequests
    exact List.mem_flatMap.mpr ⟨msg, hmem, by rw [h1]; exact List.mem_cons_self _ _⟩
  unfold inboxAfter at hin
  have h2 := (List.mem_filter.mp hin).2
  simp [hdel, hmemEv] at h2

/-- Witness for C1: a concrete unread, fresh cycle request is deleted
before execution and is gone from a one-message inbox after the tick. -/
theorem c1_witness :
    processMessage {} 0
        { id := "m1", From := "wyvern-witness", subject := "LIFECYCLE: cycle request",
          bodyJsonAction := some "cycle", timestamp := some 0 } =
      Event.deleteMail "m1" ::
        (executeLifecycleAction {} { From := "wyvern-witness", action := .cycle }).2 ∧
    { id := "m1", From := "wyvern-witness", subject := "LIFECYCLE: cycle request",
      bodyJsonAction := some "cycle", timestamp := some 0 } ∉
      inboxAfter {} 0
        [{ id := "m1", From := "wyvern-witness", subject := "LIFECYCLE: cycle request",
           bodyJsonAction := some "cycle", timestamp := some 0 }] :=
  c1_claim_then_execute {} 0 _ _ { From := "wyvern-witness", action := .cycle }
    rfl (by decide)
    (by intro t ht
        have h := Option.some.inj ht
        rw [← h]
        decide)
    (List.mem_singleton.mpr rfl) rfl

/-- C3: a lifecycle request message whose parsed timestamp is more than
the 6-hour maximum age old is deleted and produces no other effect at
all — in particular no session is killed, created, or nudged. -/
theorem c3_stale_discard (env : Env) (now t : Int) (msg : BeadsMessage)
    (request : LifecycleRequest)
    (hread : msg.read = false)
    (hparse : parseLifecycleRequest msg = some request)
    (hts : msg.timestamp = some t)
    (hstale : now - t > maxLifecycleMessageAgeMs) :
    processMessage env now msg = [Event.deleteMail msg.id] ∧
    ∀ e ∈ processMessage env now msg,
      e.isKill = false ∧ e.isCreate = false ∧ e.isNudge = false := by
  have h1 : processMessage env now msg = [Event.deleteMail msg.id] := by
    simp [processMessage, hread, hparse, hts, hstale]
  refine ⟨h1, ?_⟩
  rw [h1]
  intro e he
  have he2 : e = Event.deleteMail msg.id := by simpa using he
  subst he2
  exact ⟨rfl, rfl, rfl⟩

/-- Witness for C3: a concrete shutdown request one millisecond over
the maximum age is deleted with zero side effects. -/
theorem c3_witness :
    processMessage {} (maxLifecycleMessageAgeMs + 1)
        { id := "m2", From := "wyvern-witness", subject := "LIFECYCLE: shutdown request",
          bodyJsonAction := some "shutdown", timestamp := some 0 } =
      [Event.deleteMail "m2"] ∧
    ∀ e ∈ processMessage {} (maxLifecycleMessageAgeMs + 1)
        { id := "m2", From := "wyvern-witness", subject := "LIFECYCLE: shutdown request",
          bodyJsonAction := some "shutdown", timestamp := some 0 },
      e.isKill = false ∧ e.isCreate = false ∧ e.isNudge = false :=
  c3_stale_discard {} (maxLifecycleMessageAgeMs + 1) 0 _
    { From := "wyvern-witness", action := .shutdown }
    rfl (by decide) rfl (by decide)

/-- C4: divergence exhibited at a zombie state (session exists, agent
program not running).  The refinery manager's background `Start` — the
merger path of ensure-running — returns ErrAlreadyRunning after the
bare session-existence check and performs no kill and no create,
leaving the zombie untouched, although its call site in daemon.go
documents `Start` as handling zombie detection and returning
ErrAlreadyRunning only when the program is running; the deacon path
(`ensureDeaconRunning`) implements the claimed pair semantics at the
same observable state: kill the zombie, then recreate. -/
theorem c4_zombie_divergence :
    refineryStartBackground
        { hasSession := fun _ => true, isClaudeRunning := fun _ => false } "wyvern"
        {} false true true =
      (.error "refinery already running", [Event.hasSessionQuery "gt-wyvern-refinery"]) ∧
    ((refineryStartBackground
        { hasSession := fun _ => true, isClaudeRunning := fun _ => false } "wyvern"
        {} false true true).2.filter fun e => e.isKill || e.isCreate) = [] ∧
    ensureDeaconRunning
        { hasSession := fun _ => true, isClaudeRunning := fun _ => false } =
      [Event.hasSessionQuery "gt-deacon", Event.killSession "gt-deacon",
       Event.ensureSessionFresh "gt-deacon" "/town/deacon",
       Event.setEnvironment "gt-deacon" "GT_ROLE" "deacon",
       Event.setEnvironment "gt-deacon" "BD_ACTOR" "deacon",
       Event.sendKeys "gt-deacon" "claude"] :=
  ⟨rfl, rfl, rfl⟩

/-- C9: when a rig is not operational (parked, docked, auto_restart
blocked or disabled), every modelled restart path skips before any
session creation: the watchdog's witness ensure-running produces no
events at all, the crash-scan polecat restart fails with the reason and
an empty trace, and the lifecycle restart for any rig-level identity
with that rig fails with the reason and an empty trace. -/
theorem c9_operational_gate (env : Env) (rigName polecatName sessionName identity : String)
    (cfg : Option RoleConfig) (parsed : ParsedIdentity)
    (hop : (isRigOperational env rigName).1 = false) :
    ensureWitnessRunning env rigName = [] ∧
    restartPolecatSession env rigName polecatName sessionName =
      (.error ("cannot restart polecat: " ++ (isRigOperational env rigName).2), []) ∧
    (getRoleConfigForIdentity env identity = some (cfg, parsed) →
      parsed.rigName = rigName → rigName ≠ "" →
      restartSession env sessionName identity =
        (.error ("cannot restart session: " ++ (isRigOperational env rigName).2), [])) := by
  refine ⟨?_, ?_, ?_⟩
  · simp [ensureWitnessRunning, hop]
  · simp [restartPolecatSession, hop]
  · intro hp hr hne
    subst hr
    simp [restartSession, hp, hne, hop]

/-- Witness for C9 on a parked rig: the witness watchdog start, the
crash-scan polecat restart, and the lifecycle restart of the rig's
witness all skip without creating anything. -/
theorem c9_witness :
    ensureWitnessRunning { rigStatus := fun _ => "parked" } "wyvern" = [] ∧
    restartPolecatSession { rigStatus := fun _ => "parked" } "wyvern" "max"
        "gt-wyvern-max" =
      (.error "cannot restart polecat: rig is parked", []) ∧
    restartSession { rigStatus := fun _ => "parked" } "gt-wyvern-witness"
        "wyvern-witness" =
      (.error "cannot restart session: rig is parked", []) :=
  have h := c9_operational_gate { rigStatus := fun _ => "parked" } "wyvern" "max"
    "gt-wyvern-witness" "wyvern-witness" none
    { roleType := "witness", rigName := "wyvern" } rfl
  ⟨h.1, h.2.1, h.2.2 (by decide) rfl (by decide)⟩

/-- Every event the per-record GUPP step emits is a mail notification,
never a session kill or creation. -/
theorem guppCheckAgent_no_sessions (now : Int) (rigName : String) (a : AgentRecord)
    (e : Event) (he : e ∈ guppCheckAgent now rigName a) :
    e.isKill = false ∧ e.isCreate = false := by
  obtain ⟨i, hk, st, upd⟩ := a
  unfold guppCheckAgent at he
  cases upd with
  | none => split_ifs at he <;> simp_all
  | some t =>
    split_ifs at he <;> simp_all [Event.isKill, Event.isCreate]

/-- C6: the GUPP scan notifies and never restarts.  A worker-rig
ledger record with the rig's polecat id pattern, non-empty `HookBead`,
an active `AgentState` (`working` or `running`) and a parsed last
update timestamp produces exactly the single notification to the rig's
witness when its age strictly exceeds the 30-minute timeout and no
notification when the age is at or under the timeout; and no event of
the whole rig scan kills or creates a session. -/
theorem c6_gupp_scan (now t : Int) (rigName : String) (agents : List AgentRecord)
    (a : AgentRecord)
    (hid : strStartsWith a.id ("gt-polecat-" ++ rigName ++ "-") = true)
    (hhook : a.hookBead ≠ "")
    (hactive : a.agentState = "working" ∨ a.agentState = "running")
    (hts : a.updatedAt = some t) :
    (now - t > guppViolationTimeoutMs →
      guppCheckAgent now rigName a =
        [Event.sendMail (rigName ++ "/witness") (guppSubject a.id (now - t))
          (guppBody a.id a.hookBead (now - t))]) ∧
    (now - t ≤ guppViolationTimeoutMs → guppCheckAgent now rigName a = []) ∧
    (∀ e ∈ checkRigGUPPViolations now rigName agents,
      e.isKill = false ∧ e.isCreate = false) := by
  refine ⟨?_, ?_, ?_⟩
  · intro hover
    simp [guppCheckAgent, hid, hhook, hactive, hts, hover]
  · intro hunder
    simp [guppCheckAgent, hid, hhook, hactive, hts, not_lt.mpr hunder]
  · intro e he
    obtain ⟨b, hb, heb⟩ := List.mem_flatMap.mp he
    exact guppCheckAgent_no_sessions now rigName b e heb

/-- Witness for C6 at the timeout boundary: one unit of time over the
30-minute timeout produces exactly the witness notification, and
exactly at the timeout produces none. -/
theorem c6_witness :
    guppCheckAgent (guppViolationTimeoutMs + 1) "wyvern"
        { id := "gt-polecat-wyvern-max", hookBead := "b-1", agentState := "working",
          updatedAt := some 0 } =
      [Event.sendMail "wyvern/witness"
        (guppSubject "gt-polecat-wyvern-max" (guppViolationTimeoutMs + 1 - 0))
        (guppBody "gt-polecat-wyvern-max" "b-1" (guppViolationTimeoutMs + 1 - 0))] ∧
    guppCheckAgent guppViolationTimeoutMs "wyvern"
        { id := "gt-polecat-wyvern-max", hookBead := "b-1", agentState := "working",
          updatedAt := some 0 } = [] :=
  ⟨(c6_gupp_scan (guppViolationTimeoutMs + 1) 0 "wyvern" []
      { id := "gt-polecat-wyvern-max", hookBead := "b-1", agentState := "working",
        updatedAt := some 0 }
      (by decide) (by decide) (Or.inl rfl) rfl).1 (by decide),
   (c6_gupp_scan guppViolationTimeoutMs 0 "wyvern" []
      { id := "gt-polecat-wyvern-max", hookBead := "b-1", agentState := "working",
        updatedAt := some 0 }
      (by decide) (by decide) (Or.inl rfl) rfl).2.1 (by decide)⟩

/-- C7 counterexample: a ledger record that is dead with non-empty
`HookBead` but whose agent id is not of the polecat form
`gt-polecat-<rig>-<name>` produces NO notification, contradicting the
claim that every dead record with non-empty hook yields exactly one. -/
theorem c7_counterexample :
    checkOrphanedWork
        [{ id := "gt-crew-gastown-dan", hookBead := "gt-123", agentState := "dead" }] =
      [] := rfl

/-- Concatenation over a filtered map as a pointwise guarded
concatenation. -/
theorem flatMap_of_filter_map {α β γ : Type} (p : α → Prop) [DecidablePred p]
    (pr : α → β) (f : β → List γ) (l : List α) :
    ((l.filter fun a => decide (p a)).map pr).flatMap f =
      l.flatMap fun a => if p a then f (pr a) else [] := by
  induction l with
  | nil => rfl
  | cons x xs ih =>
    by_cases hx : p x <;> simp [List.filter_cons, hx, ih]

/-- C7 (amended): the orphaned-work scan is the pointwise concatenation
of `orphanEventsForRecord`; a dead record with non-empty hook whose id
yields an extractable rig name produces exactly the one notification to
that rig's witness; a dead record with empty hook, a record that is not
dead, and a dead hooked record whose id yields no rig name produce no
notification. -/
theorem c7_orphan_scan (agents : List AgentRecord) (a : AgentRecord) :
    checkOrphanedWork agents = agents.flatMap orphanEventsForRecord ∧
    (a.agentState = "dead" → a.hookBead ≠ "" → extractRigFromAgentID a.id ≠ "" →
      orphanEventsForRecord a =
        [Event.sendMail (extractRigFromAgentID a.id ++ "/witness") (orphanSubject a.id)
          (orphanBody a.id a.hookBead)]) ∧
    (a.agentState = "dead" → a.hookBead = "" → orphanEventsForRecord a = []) ∧
    (a.agentState ≠ "dead" → orphanEventsForRecord a = []) ∧
    (a.agentState = "dead" → extractRigFromAgentID a.id = "" →
      orphanEventsForRecord a = []) := by
  refine ⟨?_, ?_, ?_, ?_, ?_⟩
  · unfold checkOrphanedWork getDeadAgents
    rw [flatMap_of_filter_map (fun x : AgentRecord => x.agentState = "dead")
      (fun x => (x.id, x.hookBead)) orphanCheckAgent agents]
    rfl
  · intro hdead hhook hrig
    simp [orphanEventsForRecord, orphanCheckAgent, hdead, hhook, hrig]
  · intro hdead hhook
    simp [orphanEventsForRecord, orphanCheckAgent, hdead, hhook]
  · intro hdead
    simp [orphanEventsForRecord, hdead]
  · intro hdead hrig
    simp [orphanEventsForRecord, orphanCheckAgent, hdead, hrig]

/-- Witness for C7 (amended): a dead hooked polecat record yields
exactly the notification addressed to its embedded rig's witness; the
same record with an empty hook yields none. -/
theorem c7_witness :
    orphanEventsForRecord
        { id := "gt-polecat-gastown-max", hookBead := "gt-9", agentState := "dead" } =
      [Event.sendMail "gastown/witness" (orphanSubject "gt-polecat-gastown-max")
        (orphanBody "gt-polecat-gastown-max" "gt-9")] ∧
    orphanEventsForRecord
        { id := "gt-polecat-gastown-max", hookBead := "", agentState := "dead" } = [] :=
  ⟨(c7_orphan_scan []
      { id := "gt-polecat-gastown-max", hookBead := "gt-9", agentState := "dead" }).2.1
      rfl (by decide) (by decide),
   (c7_orphan_scan []
      { id := "gt-polecat-gastown-max", hookBead := "", agentState := "dead" }).2.2.1
      rfl rfl⟩

/-- Environment-variable events are never nudges. -/
theorem filter_isNudge_map_setEnv (s : String) (l : List (String × String))
    (g : String × String → String) :
    ((l.map fun kv => Event.setEnvironment s kv.1 (g kv)).filter Event.isNudge) = [] := by
  induction l with
  | nil => rfl
  | cons x xs ih => simpa [Event.isNudge] using ih

/-- The session-environment setup emits no nudge. -/
theorem filter_isNudge_setSessionEnvironment (env : Env) (s i : String)
    (cfg : Option RoleConfig) (parsed : ParsedIdentity) :
    ((setSessionEnvironment env s i cfg parsed).filter Event.isNudge) = [] := by
  cases cfg with
  | none => rfl
  | some c =>
    simpa [setSessionEnvironment, Event.isNudge] using
      filter_isNudge_map_setEnv s c.envVars
        (fun kv => env.expandPattern kv.2 parsed.rigName parsed.agentName parsed.roleType)

/-- Theming emits no nudge. -/
theorem filter_isNudge_applySessionTheme (s : String) (parsed : ParsedIdentity) :
    ((applySessionTheme s parsed).filter Event.isNudge) = [] := by
  unfold applySessionTheme
  split_ifs <;> rfl

/-- C5: executing a cycle or restart request for a live session kills
it, recreates it (running the pre-sync exactly when the resolved role
requires it), and the full effect trace follows: kill strictly before
the fresh create, and after the startup command exactly two nudges in
order — the predecessor-discoverability startup nudge, then a fixed
2000 ms pause, then the role-appropriate propulsion nudge; the nudge
filter of the whole trace is exactly that ordered pair. -/
theorem c5_cycle_restart_trace (env : Env) (request : LifecycleRequest)
    (cfg : Option RoleConfig) (parsed : ParsedIdentity) (s wd : String)
    (hs : s = identityToSession env request.From)
    (hwdEq : wd = getWorkDir env cfg parsed)
    (haction : request.action = .cycle ∨ request.action = .restart)
    (hcfg : getRoleConfigForIdentity env request.From = some (cfg, parsed))
    (hsess : s ≠ "")
    (herr : env.hasSessionErr s = false)
    (hrun : env.hasSession s = true)
    (hkill : env.killOk s = true)
    (hrig : parsed.rigName = "" ∨ (isRigOperational env parsed.rigName).1 = true)
    (hwd : wd ≠ "")
    (hfresh : env.ensureFreshOk s = true)
    (hsend : env.sendKeysOk s = true) :
    executeLifecycleAction env request =
      (.ok (),
        Event.hasSessionQuery s :: Event.killSession s ::
          Event.sleepMs env.shutdownNotifyDelayMs ::
          ((if getNeedsPreSync cfg parsed then [Event.syncWorkspace wd] else []) ++
            [Event.ensureSessionFresh s wd] ++
            setSessionEnvironment env s request.From cfg parsed ++
            applySessionTheme s parsed ++
            [Event.sendKeys s (getStartCommand env cfg parsed),
             Event.waitForCommand s, Event.acceptBypassWarning s,
             Event.sleepMs env.shutdownNotifyDelayMs,
             Event.startupNudge s (identityToBDActor request.From) "deacon"
               "lifecycle-restart",
             Event.sleepMs 2000,
             Event.nudgeSession s (env.propulsionNudgeForRole parsed.roleType wd)])) ∧
    ((executeLifecycleAction env request).2.filter Event.isNudge) =
      [Event.startupNudge s (identityToBDActor request.From) "deacon" "lifecycle-restart",
       Event.nudgeSession s (env.propulsionNudgeForRole parsed.roleType wd)] := by
  subst hs hwdEq
  have hcond : ¬(parsed.rigName ≠ "" ∧ (isRigOperational env parsed.rigName).1 = false) := by
    rcases hrig with h | h
    · simp [h]
    · simp [h]
  have hrs : restartSession env (identityToSession env request.From) request.From =
      (.ok (),
        (if getNeedsPreSync cfg parsed then
          [Event.syncWorkspace (getWorkDir env cfg parsed)] else []) ++
          [Event.ensureSessionFresh (identityToSession env request.From)
            (getWorkDir env cfg parsed)] ++
          setSessionEnvironment env (identityToSession env request.From) request.From
            cfg parsed ++
          applySessionTheme (identityToSession env request.From) parsed ++
          [Event.sendKeys (identityToSession env request.From)
            (getStartCommand env cfg parsed),
           Event.waitForCommand (identityToSession env request.From),
           Event.acceptBypassWarning (identityToSession env request.From),
           Event.sleepMs env.shutdownNotifyDelayMs,
           Event.startupNudge (identityToSession env request.From)
             (identityToBDActor request.From) "deacon" "lifecycle-restart",
           Event.sleepMs 2000,
           Event.nudgeSession (identityToSession env request.From)
             (env.propulsionNudgeForRole parsed.roleType
               (getWorkDir env cfg parsed))]) := by
    simp only [restartSession, hcfg]
    rw [if_neg hcond, if_neg hwd]
    simp [hfresh, hsend]
  have h1 : executeLifecycleAction env request =
      (.ok (),
        Event.hasSessionQuery (identityToSession env request.From) ::
          Event.killSession (identityToSession env request.From) ::
          Event.sleepMs env.shutdownNotifyDelayMs ::
          (restartSession env (identityToSession env request.From) request.From).2) := by
    rcases haction with ha | ha <;>
      simp [executeLifecycleAction, ha, hsess, herr, hrun, hkill, hrs]
  refine ⟨?_, ?_⟩
  · rw [h1, hrs]
  · rw [h1]
    simp only [List.filter_cons, List.filter_append]
    rw [hrs]
    simp only [List.filter_cons, List.filter_append]
    rw [filter_isNudge_setSessionEnvironment, filter_isNudge_applySessionTheme]
    cases hps : getNeedsPreSync cfg parsed <;>
      simp [Event.isNudge]

/-- Witness for C5: a concrete cycle request for a live witness session
ends with the startup nudge, the 2000 ms pause, and the propulsion
nudge, and the trace's nudges are exactly those two in order. -/
theorem c5_witness :
    ((executeLifecycleAction { hasSession := fun _ => true }
        { From := "wyvern-witness", action := .cycle }).2.filter Event.isNudge) =
      [Event.startupNudge "gt-wyvern-witness" "wyvern/witness" "deacon"
        "lifecycle-restart",
       Event.nudgeSession "gt-wyvern-witness" "propulsion:witness"] :=
  (c5_cycle_restart_trace { hasSession := fun _ => true }
    { From := "wyvern-witness", action := .cycle } none
    { roleType := "witness", rigName := "wyvern" } "gt-wyvern-witness" "/town/wyvern"
    rfl rfl (Or.inl rfl) rfl (by decide) rfl rfl rfl (Or.inr rfl) (by decide)
    rfl rfl).2

/-- The polecat restart itself never sends mail. -/
theorem restartPolecatSession_no_mail (env : Env) (rigName polecatName sessionName : String) :
    ((restartPolecatSession env rigName polecatName sessionName).2.filter Event.isMail) =
      [] := by
  simp only [restartPolecatSession]
  split_ifs <;> simp [Event.isMail]

/-- A successful polecat restart pre-synced the worktree and created
the session fresh in the fixed polecat working directory. -/
theorem restartPolecatSession_ok_trace (env : Env)
    (rigName polecatName sessionName : String)
    (hok : (restartPolecatSession env rigName polecatName sessionName).1 = .ok ()) :
    Event.syncWorkspace (env.townRoot ++ "/" ++ rigName ++ "/polecats/" ++ polecatName) ∈
      (restartPolecatSession env rigName polecatName sessionName).2 ∧
    Event.ensureSessionFresh sessionName
        (env.townRoot ++ "/" ++ rigName ++ "/polecats/" ++ polecatName) ∈
      (restartPolecatSession env rigName polecatName sessionName).2 := by
  simp only [restartPolecatSession] at hok ⊢
  split_ifs at hok ⊢
  all_goals simp_all

/-- C8 (amended): the crash scan classifies a gone session with
non-empty `HookBead` as a crash and attempts the automatic restart
(fixed polecat defaults: pre-sync then fresh create in the polecat
worktree); on restart success no notification is sent; on restart
failure exactly one notification carrying the failure reason goes to
the rig's witness; a gone session with empty `HookBead` triggers no
restart and no notification. -/
theorem c8_crash_scan (env : Env) (rigName polecatName : String) (info : AgentBeadInfo)
    (herr : env.hasSessionErr ("gt-" ++ rigName ++ "-" ++ polecatName) = false)
    (hdead : env.hasSession ("gt-" ++ rigName ++ "-" ++ polecatName) = false)
    (hinfo : env.agentBeadInfo (env.polecatBeadID rigName polecatName) = some info) :
    (info.hookBead = "" →
      checkPolecatHealth env rigName polecatName =
        [Event.hasSessionQuery ("gt-" ++ rigName ++ "-" ++ polecatName)]) ∧
    (info.hookBead ≠ "" →
      (restartPolecatSession env rigName polecatName
          ("gt-" ++ rigName ++ "-" ++ polecatName)).1 = .ok () →
      ((checkPolecatHealth env rigName polecatName).filter Event.isMail = [] ∧
       Event.syncWorkspace
           (env.townRoot ++ "/" ++ rigName ++ "/polecats/" ++ polecatName) ∈
         checkPolecatHealth env rigName polecatName ∧
       Event.ensureSessionFresh ("gt-" ++ rigName ++ "-" ++ polecatName)
           (env.townRoot ++ "/" ++ rigName ++ "/polecats/" ++ polecatName) ∈
         checkPolecatHealth env rigName polecatName)) ∧
    (info.hookBead ≠ "" → ∀ e,
      (restartPolecatSession env rigName polecatName
          ("gt-" ++ rigName ++ "-" ++ polecatName)).1 = .error e →
      (checkPolecatHealth env rigName polecatName).filter Event.isMail =
        [Event.sendMail (rigName ++ "/witness") (crashSubject rigName polecatName)
          (crashBody polecatName info.hookBead e)]) := by
  refine ⟨?_, ?_, ?_⟩
  · intro hhook
    simp [checkPolecatHealth, herr, hdead, hinfo, hhook]
  · intro hhook hok
    have hch : checkPolecatHealth env rigName polecatName =
        Event.hasSessionQuery ("gt-" ++ rigName ++ "-" ++ polecatName) ::
          (restartPolecatSession env rigName polecatName
            ("gt-" ++ rigName ++ "-" ++ polecatName)).2 := by
      simp [checkPolecatHealth, herr, hdead, hinfo, hhook, hok]
    have hmem := restartPolecatSession_ok_trace env rigName polecatName
      ("gt-" ++ rigName ++ "-" ++ polecatName) hok
    refine ⟨?_, ?_, ?_⟩
    · rw [hch, List.filter_cons]
      simp [Event.isMail, restartPolecatSession_no_mail]
    · rw [hch]
      exact List.mem_cons_of_mem _ hmem.1
    · rw [hch]
      exact List.mem_cons_of_mem _ hmem.2
  · intro hhook e he
    have hch : checkPolecatHealth env rigName polecatName =
        Event.hasSessionQuery ("gt-" ++ rigName ++ "-" ++ polecatName) ::
          ((restartPolecatSession env rigName polecatName
              ("gt-" ++ rigName ++ "-" ++ polecatName)).2 ++
            [Event.sendMail (rigName ++ "/witness") (crashSubject rigName polecatName)
              (crashBody polecatName info.hookBead e)]) := by
      simp [checkPolecatHealth, herr, hdead, hinfo, hhook, he]
    rw [hch, List.filter_cons]
    simp [Event.isMail, List.filter_append, restartPolecatSession_no_mail]

/-- C8 counterexample to the resolver wording: with an explicit role
configuration whose working-directory pattern resolves to
`/custom-workdir`, the crash-scan restart still creates the session in
the fixed default polecat worktree — it does not consult the Role
Configuration Resolver, which for the same environment and identity
resolves `/custom-workdir`. -/
theorem c8_counterexample :
    Event.ensureSessionFresh "gt-wyvern-max" "/town/wyvern/polecats/max" ∈
      (restartPolecatSession
        { getRoleConfig := fun _ => some { workDirPattern := "/custom-workdir" } }
        "wyvern" "max" "gt-wyvern-max").2 ∧
    Option.map
        (fun pr => getWorkDir
          { getRoleConfig := fun _ => some { workDirPattern := "/custom-workdir" } }
          pr.1 pr.2)
        (getRoleConfigForIdentity
          { getRoleConfig := fun _ => some { workDirPattern := "/custom-workdir" } }
          "wyvern-polecat-max") =
      some "/custom-workdir" ∧
    ("/town/wyvern/polecats/max" : String) ≠ "/custom-workdir" :=
  ⟨by decide, by decide, by decide⟩

/-- Witness for C8: with a hooked bead and a gone session, a healthy
environment restarts the polecat (fresh create in its worktree, no
notification), and a parked rig makes the restart fail and produces
exactly the one witness notification carrying the reason. -/
theorem c8_witness :
    ((checkPolecatHealth { agentBeadInfo := fun _ => some { hookBead := "gt-7" } }
        "wyvern" "max").filter Event.isMail = [] ∧
      Event.ensureSessionFresh "gt-wyvern-max" "/town/wyvern/polecats/max" ∈
        checkPolecatHealth { agentBeadInfo := fun _ => some { hookBead := "gt-7" } }
          "wyvern" "max") ∧
    (checkPolecatHealth
        { rigStatus := fun _ => "parked",
          agentBeadInfo := fun _ => some { hookBead := "gt-7" } }
        "wyvern" "max").filter Event.isMail =
      [Event.sendMail "wyvern/witness" (crashSubject "wyvern" "max")
        (crashBody "max" "gt-7" "cannot restart polecat: rig is parked")] :=
  have hA := c8_crash_scan { agentBeadInfo := fun _ => some { hookBead := "gt-7" } }
    "wyvern" "max" { hookBead := "gt-7" } rfl rfl rfl
  have hB := c8_crash_scan
    { rigStatus := fun _ => "parked",
      agentBeadInfo := fun _ => some { hookBead := "gt-7" } }
    "wyvern" "max" { hookBead := "gt-7" } rfl rfl rfl
  have hA2 := hA.2.1 (by decide) rfl
  ⟨⟨hA2.1, hA2.2.2⟩, hB.2.2 (by decide) "cannot restart polecat: rig is parked" rfl⟩

end Gastown
